import Mathlib

/-!
Verification of the `pagination` Go package (etcinit/pagination).

Go machine integers (`int`, 64-bit) are embedded as unbounded `Int`; the
properties below quantify over ranges where 64-bit overflow cannot occur,
except in `goAtoi`, where the `int64` bounds of `strconv.Atoi` are modelled
explicitly because they are observable through its clamping behaviour.
-/

namespace Pagination

/-- The `Paginator` struct: `itemsPerPage`, `numberOfItems`, `currentPage`. -/
structure Paginator where
  itemsPerPage  : Int
  numberOfItems : Int
  currentPage   : Int
  deriving Repr, DecidableEq

/-- A Go `interface{}` value as seen through `reflect`: either a slice of
boxed elements, or a value of some other `reflect.Kind` (map, int, string,
struct, ...), abstracted by the name of its kind. -/
inductive GoValue where
  | slice (elems : List GoValue)
  | other (kind : String)

/-- True exactly when `reflect.ValueOf(v).Kind() == reflect.Slice`. -/
def GoValue.kindIsSlice : GoValue → Bool
  | .slice _ => true
  | .other _ => false

/-- The serializable `Pagination` struct. -/
structure Pagination where
  ItemsPerPage  : Int
  NumberOfItems : Int
  CurrentPage   : Int
  Offset        : Int
  NextPage      : Int
  PreviousPage  : Int
  TotalPages    : Int
  Data          : List GoValue

/-- Embedding of `int(math.Ceil(float64(n) / float64(p)))` for `p > 0`:
the exact integer ceiling of the quotient `n / p`, written as
`-((-n) / p)` with floor (Euclidean) division. The `float64` computation
in the source is exact on the magnitudes the claims quantify over.
`goCeil_eq_ceil` below proves this equals the mathematical ceiling. -/
def goCeil (n p : Int) : Int := -((-n).ediv p)

/-- Embedding of `New`: the zero sentinel is replaced by 1, then the page is
clamped from above by `goCeil numberOfItems itemsPerPage`. -/
def New (numberOfItems itemsPerPage currentPage : Int) : Paginator :=
  let currentPage := if currentPage = 0 then 1 else currentPage
  let n := goCeil numberOfItems itemsPerPage
  let currentPage := if currentPage > n then n else currentPage
  { itemsPerPage := itemsPerPage
    numberOfItems := numberOfItems
    currentPage := currentPage }

/-- Accessor `CurrentPage`. -/
def Paginator.CurrentPage (p : Paginator) : Int := p.currentPage

/-- Accessor `NumberOfItems`. -/
def Paginator.NumberOfItems (p : Paginator) : Int := p.numberOfItems

/-- Accessor `ItemsPerPage`. -/
def Paginator.ItemsPerPage (p : Paginator) : Int := p.itemsPerPage

/-- `NumberOfPages`, recomputed from the stored fields on each call. -/
def Paginator.NumberOfPages (p : Paginator) : Int :=
  goCeil p.NumberOfItems p.ItemsPerPage

/-- `Offset`: `(CurrentPage() - 1) * ItemsPerPage()`. -/
def Paginator.Offset (p : Paginator) : Int :=
  (p.CurrentPage - 1) * p.ItemsPerPage

/-- `PreviousPage`: current page minus one, floored at 1. -/
def Paginator.PreviousPage (p : Paginator) : Int :=
  if p.CurrentPage ≤ 1 then 1 else p.CurrentPage - 1

/-- `NextPage`: current page plus one, capped at `NumberOfPages`. -/
def Paginator.NextPage (p : Paginator) : Int :=
  if p.CurrentPage ≥ p.NumberOfPages then p.NumberOfPages
  else p.CurrentPage + 1

/-- `IsCurrentPage`. -/
def Paginator.IsCurrentPage (p : Paginator) (page : Int) : Bool :=
  p.CurrentPage == page

/-- `Show`: whether there is more than one page. -/
def Paginator.Show (p : Paginator) : Bool := p.NumberOfPages > 1

/-- The values produced by the loop `for i := 1; i <= N; i++`, in order. -/
def countUpFrom1 (N : Int) : List Int :=
  (List.range N.toNat).map (fun i : Nat => (i : Int) + 1)

/-- `Pages`: the slice built by appending `i` for `i = 1 .. NumberOfPages()`. -/
def Paginator.Pages (p : Paginator) : List Int := countUpFrom1 p.NumberOfPages

/-- The sequence of values the `PagesStream` goroutine sends on the channel
before it closes it: the same loop `for i := 1; i <= NumberOfPages(); i++`
followed by `close(stream)`. -/
def Paginator.PagesStreamEmits (p : Paginator) : List Int :=
  countUpFrom1 p.NumberOfPages

/-- Synchronous unbuffered-channel semantics for the `PagesStream` producer
goroutine. `pending` is the list of values it still has to send and
`receives` is the number of receive operations the consumer will still
perform before abandoning the channel. A send completes only when matched
by a receive; the goroutine reaches `close(stream)` and exits (`true`) only
if every pending send is matched, and otherwise blocks forever on
`stream <- i` (`false`). -/
def producerFinishes : List Int → Nat → Bool
  | [], _ => true
  | _ :: rest, Nat.succ k => producerFinishes rest k
  | _ :: _, 0 => false

/-- `ToPagination`: snapshot of all accessors, with an empty `Data`. -/
def Paginator.ToPagination (p : Paginator) : Pagination :=
  { ItemsPerPage  := p.ItemsPerPage
    NumberOfItems := p.NumberOfItems
    CurrentPage   := p.CurrentPage
    Offset        := p.Offset
    NextPage      := p.NextPage
    PreviousPage  := p.PreviousPage
    TotalPages    := p.NumberOfPages
    Data          := [] }

/-- Embedding of `interfaceSlice`: returns the elements of a slice value,
boxed; on a non-slice argument the Go function panics with this message,
and the panic propagates out of the caller, which we embed as
`Except.error`. -/
def interfaceSlice : GoValue → Except String (List GoValue)
  | .slice elems => Except.ok elems
  | .other _ => Except.error "interfaceSlice given a non-slice type"

/-- `ToPaginationWithData`: `ToPagination` with `Data` replaced by the
converted slice; the panic of `interfaceSlice` propagates. -/
def Paginator.ToPaginationWithData (p : Paginator) (slice : GoValue) :
    Except String Pagination := do
  let pagination := p.ToPagination
  let data ← interfaceSlice slice
  pure { pagination with Data := data }

/-- An HTTP request, abstracted to what `NewFromRequest` reads from it: its
URL query parameters, as an ordered list of key-value pairs. -/
structure Request where
  query : List (String × String)
  deriving Repr, DecidableEq

/-- Embedding of `req.URL.Query().Get(key)`: the first value associated with
the key, or the empty string when the key is absent. -/
def Request.getQuery (r : Request) (key : String) : String :=
  match r.query.find? (fun kv => kv.1 == key) with
  | some kv => kv.2
  | none => ""

/-- Digit accumulator for `goAtoi` (base 10, unbounded). -/
def parseDigitsAux : List Char → Nat → Option Nat
  | [], acc => some acc
  | c :: cs, acc =>
    if 48 ≤ c.toNat ∧ c.toNat ≤ 57 then
      parseDigitsAux cs (acc * 10 + (c.toNat - 48))
    else none

/-- Parses a nonempty string of decimal digits; `none` on a syntax error. -/
def parseDigits : List Char → Option Nat
  | [] => none
  | cs => parseDigitsAux cs 0

/-- Splits the optional leading sign of a decimal literal from its digits:
a leading minus marks the number negative, a leading plus is skipped. -/
def stripSign : List Char → Bool × List Char
  | '-' :: rest => (true, rest)
  | '+' :: rest => (false, rest)
  | cs => (false, cs)

/-- Embedding of `strconv.Atoi` (i.e. `strconv.ParseInt(s, 10, 64)` for
64-bit `int`): returns the parsed value and an ok flag (the negation of the
returned error). On a syntax error (empty string, lone sign, or a non-digit
character) the value is 0; on an out-of-range input the value is clamped to
the maximum-magnitude `int64` of the appropriate sign, with the error set
(`ErrRange`). -/
def goAtoi (s : String) : Int × Bool :=
  match parseDigits (stripSign s.toList).2 with
  | none => (0, false)
  | some m =>
    if (stripSign s.toList).1 then
      if (2 : Int) ^ 63 < (m : Int) then (-((2 : Int) ^ 63), false)
      else (-(m : Int), true)
    else
      if (2 : Int) ^ 63 ≤ (m : Int) then ((2 : Int) ^ 63 - 1, false)
      else ((m : Int), true)

/-- Embedding of `NewFromRequest`: parse the `page` query parameter with
`Atoi`, discard the error (`currentPage, _ := strconv.Atoi(...)`), and
delegate to `New`. -/
def NewFromRequest (numberOfItems itemsPerPage : Int) (req : Request) :
    Paginator :=
  let currentPageString := req.getQuery "page"
  let currentPage := (goAtoi currentPageString).1
  New numberOfItems itemsPerPage currentPage

/-! ## Basic facts about the ceiling division -/

lemma goCeil_eq_ceil (n p : Int) (hp : 0 < p) :
    goCeil n p = ⌈(n : ℚ) / (p : ℚ)⌉ := by
  have hpQ : (0 : ℚ) < (p : ℚ) := by exact_mod_cast hp
  have hdm : p * ((-n).ediv p) + (-n).emod p = -n := Int.ediv_add_emod (-n) p
  have hr0 : 0 ≤ (-n).emod p := Int.emod_nonneg (-n) hp.ne'
  have hrp : (-n).emod p < p := Int.emod_lt_of_pos (-n) hp
  symm
  rw [Int.ceil_eq_iff]
  have hdmQ : (p : ℚ) * ((-n).ediv p : Int) + ((-n).emod p : Int) = -(n : ℚ) := by
    exact_mod_cast hdm
  have hr0Q : (0 : ℚ) ≤ ((-n).emod p : Int) := by exact_mod_cast hr0
  have hrpQ : (((-n).emod p : Int) : ℚ) < (p : ℚ) := by exact_mod_cast hrp
  constructor
  · rw [lt_div_iff₀ hpQ]
    push_cast [goCeil]
    nlinarith
  · rw [div_le_iff₀ hpQ]
    push_cast [goCeil]
    nlinarith

lemma goCeil_nonneg {n p : Int} (hn : 0 ≤ n) (hp : 0 < p) :
    0 ≤ goCeil n p := by
  rw [goCeil_eq_ceil n p hp]
  exact Int.ceil_nonneg (div_nonneg (by exact_mod_cast hn) (by positivity))

lemma goCeil_pos {n p : Int} (hn : 1 ≤ n) (hp : 0 < p) :
    1 ≤ goCeil n p := by
  rw [goCeil_eq_ceil n p hp]
  have : (0 : ℚ) < (n : ℚ) / (p : ℚ) := by
    apply div_pos <;> [exact_mod_cast hn; exact_mod_cast hp]
  exact Int.ceil_pos.mpr this

lemma goCeil_zero (p : Int) : goCeil 0 p = 0 := by
  have h : Int.ediv 0 p = 0 := Int.zero_ediv p
  unfold goCeil
  rw [neg_zero, h, neg_zero]

lemma New_currentPage (n pp rp : Int) :
    (New n pp rp).CurrentPage =
      if (if rp = 0 then 1 else rp) > goCeil n pp then goCeil n pp
      else (if rp = 0 then 1 else rp) := rfl

lemma New_numberOfPages (n pp rp : Int) :
    (New n pp rp).NumberOfPages = goCeil n pp := rfl

lemma New_itemsPerPage (n pp rp : Int) :
    (New n pp rp).ItemsPerPage = pp := rfl

lemma New_numberOfItems (n pp rp : Int) :
    (New n pp rp).NumberOfItems = n := rfl

lemma prev_ge_one (p : Paginator) : 1 ≤ p.PreviousPage := by
  unfold Paginator.PreviousPage
  split_ifs <;> omega

lemma next_le_numberOfPages (p : Paginator) :
    p.NextPage ≤ p.NumberOfPages := by
  unfold Paginator.NextPage
  split_ifs <;> omega

/-! ## Claim theorems -/

/-- C1, counterexample: a paginator built from zero items has
`NumberOfPages() == 0`, refuting the claim that `NumberOfPages() >= 1`
always holds, including when `n == 0`. -/
theorem numberOfPages_zero_items_cex :
    (New 0 1 1).NumberOfPages = 0 ∧ ¬(1 ≤ (New 0 1 1).NumberOfPages) := by
  decide

/-- C1 (amended): for `n ≥ 0` and `perPage > 0`, `NumberOfPages()` of any
constructed paginator equals the mathematical ceiling of `n / perPage`;
it is at least 1 whenever `n ≥ 1`, but equals 0 when `n = 0`. -/
theorem numberOfPages_eq_ceil (n pp rp : Int) (hn : 0 ≤ n) (hpp : 0 < pp) :
    (New n pp rp).NumberOfPages = ⌈(n : ℚ) / (pp : ℚ)⌉
    ∧ (1 ≤ n → 1 ≤ (New n pp rp).NumberOfPages)
    ∧ (n = 0 → (New n pp rp).NumberOfPages = 0) := by
  refine ⟨?_, ?_, ?_⟩
  · rw [New_numberOfPages]
    exact goCeil_eq_ceil n pp hpp
  · intro h1
    rw [New_numberOfPages]
    exact goCeil_pos h1 hpp
  · intro h0
    subst h0
    rw [New_numberOfPages]
    exact goCeil_zero pp

/-- Witness for C1 at `(10, 3, 1)`. -/
theorem numberOfPages_eq_ceil_witness :
    (0 : Int) ≤ 10 ∧ (0 : Int) < 3 ∧
      ((New 10 3 1).NumberOfPages = ⌈((10 : Int) : ℚ) / ((3 : Int) : ℚ)⌉
       ∧ (1 ≤ (10 : Int) → 1 ≤ (New 10 3 1).NumberOfPages)
       ∧ ((10 : Int) = 0 → (New 10 3 1).NumberOfPages = 0)) :=
  ⟨by norm_num, by norm_num,
    numberOfPages_eq_ceil 10 3 1 (by norm_num) (by norm_num)⟩

/-- C2, counterexample: with zero items and requested page 5, the stored
current page is 0, which falls below the claimed lower bound of 1. -/
theorem currentPage_zero_items_cex :
    (New 0 1 5).CurrentPage = 0 ∧ ¬(1 ≤ (New 0 1 5).CurrentPage) := by
  decide

/-- C2 (amended): for `n ≥ 1`, `perPage > 0` and `requestedPage ≥ 0`, the
constructed paginator satisfies
`1 ≤ CurrentPage() ≤ max(1, ceil(n / perPage))`; the fields are never
mutated, so every read returns these values. When `n = 0` the invariant
fails: `CurrentPage()` is 0 (see the counterexample). -/
theorem currentPage_bounds (n pp rp : Int) (hn : 1 ≤ n) (hpp : 0 < pp)
    (hrp : 0 ≤ rp) :
    1 ≤ (New n pp rp).CurrentPage ∧
      (New n pp rp).CurrentPage ≤ max 1 ⌈(n : ℚ) / (pp : ℚ)⌉ := by
  have hc := goCeil_eq_ceil n pp hpp
  have h1 := goCeil_pos hn hpp
  rw [← hc, max_eq_right h1, New_currentPage]
  split_ifs <;> omega

/-- Witness for C2 at `(10, 2, 7)`. -/
theorem currentPage_bounds_witness :
    (1 : Int) ≤ 10 ∧ (0 : Int) < 2 ∧ (0 : Int) ≤ 7 ∧
      (1 ≤ (New 10 2 7).CurrentPage ∧
        (New 10 2 7).CurrentPage ≤
          max 1 ⌈((10 : Int) : ℚ) / ((2 : Int) : ℚ)⌉) :=
  ⟨by norm_num, by norm_num, by norm_num,
    currentPage_bounds 10 2 7 (by norm_num) (by norm_num) (by norm_num)⟩

/-- C3, counterexample: with zero items, the zero sentinel is first turned
into page 1 and then clamped down to `NumberOfPages() == 0`, so
`New(0, 2, 0).CurrentPage()` is 0, not 1. -/
theorem zero_sentinel_zero_items_cex :
    (New 0 2 0).CurrentPage = 0 ∧ (New 0 2 0).CurrentPage ≠ 1 := by
  decide

/-- C3 (amended): for `n ≥ 1` and `perPage > 0`, a requested page of 0 is
treated as page 1: `New(n, perPage, 0).CurrentPage() == 1`; but when
`n = 0` the result is 0 instead. -/
theorem zero_sentinel_currentPage (n pp : Int) (hn : 1 ≤ n) (hpp : 0 < pp) :
    (New n pp 0).CurrentPage = 1 ∧ (New 0 pp 0).CurrentPage = 0 := by
  have h1 := goCeil_pos hn hpp
  constructor
  · rw [New_currentPage]
    split_ifs <;> omega
  · rw [New_currentPage, goCeil_zero]
    norm_num

/-- Witness for C3 at `(10, 2)`. -/
theorem zero_sentinel_currentPage_witness :
    (1 : Int) ≤ 10 ∧ (0 : Int) < 2 ∧
      ((New 10 2 0).CurrentPage = 1 ∧ (New 0 2 0).CurrentPage = 0) :=
  ⟨by norm_num, by norm_num,
    zero_sentinel_currentPage 10 2 (by norm_num) (by norm_num)⟩

/-- C4: for `n ≥ 0`, `perPage > 0` and `p ≠ 0`, with
`totalPages = ceil(n / perPage)`: a requested page above `totalPages` is
clamped to `totalPages`; a requested page in `[1, totalPages]` is stored
unchanged; and a negative requested page is stored unchanged. -/
theorem new_clamp (n pp p : Int) (hn : 0 ≤ n) (hpp : 0 < pp) (hp : p ≠ 0) :
    (p > ⌈(n : ℚ) / (pp : ℚ)⌉ →
      (New n pp p).CurrentPage = ⌈(n : ℚ) / (pp : ℚ)⌉)
    ∧ (1 ≤ p → p ≤ ⌈(n : ℚ) / (pp : ℚ)⌉ → (New n pp p).CurrentPage = p)
    ∧ (p < 0 → (New n pp p).CurrentPage = p) := by
  have hc := goCeil_eq_ceil n pp hpp
  have h0 := goCeil_nonneg hn hpp
  rw [← hc, New_currentPage]
  refine ⟨?_, ?_, ?_⟩
  · intro hgt
    split_ifs <;> omega
  · intro hp1 hple
    split_ifs <;> omega
  · intro hneg
    split_ifs <;> omega

/-- Witness for C4 at `(10, 2, 7)`: page 7 exceeds the 5 total pages and is
clamped to 5. -/
theorem new_clamp_witness :
    (0 : Int) ≤ 10 ∧ (0 : Int) < 2 ∧ (7 : Int) ≠ 0 ∧
      ((7 > ⌈((10 : Int) : ℚ) / ((2 : Int) : ℚ)⌉ →
        (New 10 2 7).CurrentPage = ⌈((10 : Int) : ℚ) / ((2 : Int) : ℚ)⌉)
      ∧ (1 ≤ (7 : Int) → (7 : Int) ≤ ⌈((10 : Int) : ℚ) / ((2 : Int) : ℚ)⌉ →
          (New 10 2 7).CurrentPage = 7)
      ∧ ((7 : Int) < 0 → (New 10 2 7).CurrentPage = 7)) :=
  ⟨by norm_num, by norm_num, by norm_num,
    new_clamp 10 2 7 (by norm_num) (by norm_num) (by norm_num)⟩

/-- C6: for every constructed paginator, `PreviousPage()` is at least 1 and
`NextPage()` is at most `NumberOfPages()`. -/
theorem previousPage_nextPage_bounds (n pp rp : Int) :
    1 ≤ (New n pp rp).PreviousPage ∧
      (New n pp rp).NextPage ≤ (New n pp rp).NumberOfPages :=
  ⟨prev_ge_one _, next_le_numberOfPages _⟩

/-- C10: for `n ≥ 0`, `perPage > 0` and a negative requested page `p`, the
paginator stores `p` unchanged, so `CurrentPage() == p < 0` and
`Offset() == (p - 1) * perPage`, which is strictly negative. -/
theorem negative_requestedPage_offset (n pp p : Int) (hn : 0 ≤ n)
    (hpp : 0 < pp) (hpneg : p < 0) :
    (New n pp p).CurrentPage = p
    ∧ (New n pp p).Offset = (p - 1) * pp
    ∧ (New n pp p).Offset < 0 := by
  have h0 := goCeil_nonneg hn hpp
  have hcp : (New n pp p).CurrentPage = p := by
    rw [New_currentPage]
    split_ifs <;> omega
  have hoff : (New n pp p).Offset = (p - 1) * pp := by
    unfold Paginator.Offset
    rw [hcp, New_itemsPerPage]
  exact ⟨hcp, hoff, hoff ▸ mul_neg_of_neg_of_pos (by omega) hpp⟩

/-- Witness for C10 at `(10, 2, -3)`: the offset is `-8`. -/
theorem negative_requestedPage_offset_witness :
    (0 : Int) ≤ 10 ∧ (0 : Int) < 2 ∧ (-3 : Int) < 0 ∧
      ((New 10 2 (-3)).CurrentPage = -3
       ∧ (New 10 2 (-3)).Offset = (-3 - 1) * 2
       ∧ (New 10 2 (-3)).Offset < 0) :=
  ⟨by norm_num, by norm_num, by norm_num,
    negative_requestedPage_offset 10 2 (-3) (by norm_num) (by norm_num)
      (by norm_num)⟩

/-! ## Pages and the stream of pages -/

lemma countUpFrom1_length (N : Int) : (countUpFrom1 N).length = N.toNat := by
  rw [countUpFrom1, List.length_map, List.length_range]

lemma countUpFrom1_get (N : Int) (i : Nat) (h : i < (countUpFrom1 N).length) :
    (countUpFrom1 N).get ⟨i, h⟩ = (i : Int) + 1 := by
  simp only [countUpFrom1, List.get_eq_getElem, List.getElem_map,
    List.getElem_range]

lemma countUpFrom1_chain (N : Int) :
    List.Chain' (· < ·) (countUpFrom1 N) := by
  rw [List.chain'_iff_get]
  intro i h
  rw [countUpFrom1_get, countUpFrom1_get]
  push_cast
  omega

/-- C5: the pages list of a constructed paginator has exactly
`NumberOfPages()` entries, its `i`-th entry is `i + 1` (so it is
`[1, 2, ..., NumberOfPages()]`), it is strictly ascending, and the sequence
the `PagesStream` goroutine emits before closing the channel is exactly the
same sequence, with exactly `NumberOfPages()` emissions. -/
theorem pages_and_stream (n pp rp : Int) (hn : 0 ≤ n) (hpp : 0 < pp) :
    ((New n pp rp).Pages.length : Int) = (New n pp rp).NumberOfPages
    ∧ (∀ i (h : i < (New n pp rp).Pages.length),
        (New n pp rp).Pages.get ⟨i, h⟩ = (i : Int) + 1)
    ∧ List.Chain' (· < ·) (New n pp rp).Pages
    ∧ (New n pp rp).PagesStreamEmits = (New n pp rp).Pages
    ∧ (((New n pp rp).PagesStreamEmits.length : Int) =
        (New n pp rp).NumberOfPages) := by
  have hN : 0 ≤ (New n pp rp).NumberOfPages := by
    rw [New_numberOfPages]
    exact goCeil_nonneg hn hpp
  have hlen : ((New n pp rp).Pages.length : Int) =
      (New n pp rp).NumberOfPages := by
    unfold Paginator.Pages
    rw [countUpFrom1_length]
    exact Int.toNat_of_nonneg hN
  exact ⟨hlen, fun i h => countUpFrom1_get _ i h, countUpFrom1_chain _,
    rfl, hlen⟩

/-- Witness for C5 at `(28, 25, 2)`: two pages, `[1, 2]`. -/
theorem pages_and_stream_witness :
    (0 : Int) ≤ 28 ∧ (0 : Int) < 25 ∧
      (((New 28 25 2).Pages.length : Int) = (New 28 25 2).NumberOfPages
      ∧ (∀ i (h : i < (New 28 25 2).Pages.length),
          (New 28 25 2).Pages.get ⟨i, h⟩ = (i : Int) + 1)
      ∧ List.Chain' (· < ·) (New 28 25 2).Pages
      ∧ (New 28 25 2).PagesStreamEmits = (New 28 25 2).Pages
      ∧ (((New 28 25 2).PagesStreamEmits.length : Int) =
          (New 28 25 2).NumberOfPages)) :=
  ⟨by norm_num, by norm_num,
    pages_and_stream 28 25 2 (by norm_num) (by norm_num)⟩

lemma producerFinishes_iff (l : List Int) (k : Nat) :
    producerFinishes l k = true ↔ l.length ≤ k := by
  induction l generalizing k with
  | nil => simp [producerFinishes]
  | cons a rest ih =>
    cases k with
    | zero => simp [producerFinishes]
    | succ k =>
      rw [show producerFinishes (a :: rest) (k + 1) =
            producerFinishes rest k from rfl, ih]
      simp only [List.length_cons]
      omega

/-- C9, counterexample: for the two-page paginator `New(28, 25, 2)`, a
consumer that receives one value and then stops leaves the producer
goroutine blocked forever on its second unbuffered send; it never reaches
`close(stream)`, so the goroutine is leaked. -/
theorem pagesStream_leak_cex :
    producerFinishes ((New 28 25 2).PagesStreamEmits) 1 = false := by
  decide

/-- C9 (amended): the `PagesStream` producer has no cancellation mechanism:
under synchronous unbuffered-channel semantics it terminates iff the
consumer performs at least `NumberOfPages()` receives, and a consumer that
stops consuming earlier leaves the producer blocked forever on its next
send. -/
theorem pagesStream_producer_termination (n pp rp : Int) (k : Nat) :
    producerFinishes ((New n pp rp).PagesStreamEmits) k = true ↔
      (New n pp rp).NumberOfPages.toNat ≤ k := by
  rw [producerFinishes_iff]
  unfold Paginator.PagesStreamEmits
  rw [countUpFrom1_length]

/-! ## Projection to the serializable struct -/

/-- C7: `ToPaginationWithData` fails (the panic raised by `interfaceSlice`
on a non-slice `reflect.Kind`, propagated to the caller) iff its argument
is not a slice; on a slice it returns exactly `ToPagination()` with `Data`
replaced by the slice's elements, boxed element-wise. -/
theorem toPaginationWithData_spec (pg : Paginator) (v : GoValue)
    (elems : List GoValue) :
    ((∃ msg, pg.ToPaginationWithData v = Except.error msg) ↔
      v.kindIsSlice = false)
    ∧ pg.ToPaginationWithData (GoValue.slice elems) =
        Except.ok { pg.ToPagination with Data := elems } := by
  constructor
  · cases v <;>
      simp [Paginator.ToPaginationWithData, interfaceSlice,
        GoValue.kindIsSlice]
  · rfl

/-! ## Construction from an HTTP request -/

lemma goAtoi_error_values (s : String) :
    (goAtoi s).2 = false →
    (goAtoi s).1 = 0 ∨ (goAtoi s).1 = (2 : Int) ^ 63 - 1 ∨
      (goAtoi s).1 = -((2 : Int) ^ 63) := by
  unfold goAtoi
  split
  · exact fun _ => Or.inl rfl
  · split_ifs with hs hlt hle <;> intro h
    · exact Or.inr (Or.inr rfl)
    · simp at h
    · exact Or.inr (Or.inl rfl)
    · simp at h

/-- C8, counterexample: a `page` parameter that is a syntactically valid
integer but out of `int64` range fails to parse (`Atoi` reports
`ErrRange`), yet the discarded-error value is `MaxInt64`, not 0: the
resulting paginator sits on the last page instead of page 1. -/
theorem newFromRequest_range_cex :
    (goAtoi "9223372036854775808").2 = false
    ∧ (goAtoi "9223372036854775808").1 = (2 : Int) ^ 63 - 1
    ∧ NewFromRequest 10 2 ⟨[("page", "9223372036854775808")]⟩ ≠ New 10 2 0
    ∧ (NewFromRequest 10 2
        ⟨[("page", "9223372036854775808")]⟩).CurrentPage = 5
    ∧ (New 10 2 0).CurrentPage = 1 := by
  decide

/-- C8 (amended): `NewFromRequest` never reports an error: it always
returns `New(n, perPage, q)` where `q` is `Atoi`'s returned value with the
error discarded. `q` is 0 when the `page` parameter is missing or
syntactically invalid, but when the parameter is a syntactically valid
integer out of `int64` range, `q` is the clamped extreme `2^63 - 1` or
`-2^63` rather than 0. -/
theorem newFromRequest_spec (n pp : Int) (req : Request) :
    NewFromRequest n pp req = New n pp (goAtoi (req.getQuery "page")).1
    ∧ (req.getQuery "page" = "" → NewFromRequest n pp req = New n pp 0)
    ∧ ((goAtoi (req.getQuery "page")).2 = false →
        (goAtoi (req.getQuery "page")).1 = 0
        ∨ (goAtoi (req.getQuery "page")).1 = (2 : Int) ^ 63 - 1
        ∨ (goAtoi (req.getQuery "page")).1 = -((2 : Int) ^ 63)) := by
  refine ⟨rfl, ?_, goAtoi_error_values _⟩
  intro hmiss
  show New n pp (goAtoi (req.getQuery "page")).1 = New n pp 0
  rw [hmiss]
  rfl

/-- Witness for C8: a request with no query parameters yields the same
paginator as a requested page of 0. -/
theorem newFromRequest_spec_witness :
    NewFromRequest 10 2 ⟨[]⟩ = New 10 2 0 :=
  (newFromRequest_spec 10 2 ⟨[]⟩).2.1 rfl

end Pagination
